import Mathlib

/-!
Verification of the event-sourced CQRS runtime of the restaurant/order demo.

The definitions below are a shallow embedding of the Rust sources:
value objects, commands and events from src/domain/api.rs; the pure
decide/evolve/react functions from src/domain/restaurant_decider.rs,
src/domain/restaurant_view.rs, src/domain/order_view.rs and
src/domain/order_saga.rs; the serde payload encoding used by the
repositories; the event-store queries from src/adapter/database/queries.rs;
the repository save loops from src/adapter/repository/; and the two
stream-dispatch passes from src/adapter/event_stream/.

Machine integers are modelled as Nat/Int, f64 JSON numbers as Rat (JSON has
no non-finite literals), and Uuid as an opaque string wrapper.  Randomness
(Uuid::new_v4) is modelled by an explicit supply of identifiers passed to
the functions that draw fresh ids.
-/

-- ######################################################################
-- Value objects (src/domain/api.rs)
-- ######################################################################

/-- Uuid, modelled as its hyphenated string form (uuid::Uuid serializes as a
string; format validation is elided, which only widens the decode domain). -/
structure Uuid where
  str : String
deriving DecidableEq, Repr

/-- RestaurantId(pub Uuid) newtype. -/
structure RestaurantId where
  val : Uuid
deriving DecidableEq, Repr

/-- RestaurantName(pub String) newtype. -/
structure RestaurantName where
  val : String
deriving DecidableEq, Repr

/-- OrderId(pub Uuid) newtype. -/
structure OrderId where
  val : Uuid
deriving DecidableEq, Repr

/-- Reason(pub String) newtype. -/
structure Reason where
  val : String
deriving DecidableEq, Repr

/-- Money(pub f64) newtype.  The payload travels as a JSON number; it is
modelled as Rat, which represents every finite double exactly. -/
structure Money where
  val : Rat
deriving DecidableEq, Repr

/-- MenuId(pub Uuid) newtype. -/
structure MenuId where
  val : Uuid
deriving DecidableEq, Repr

/-- MenuItemId(pub Uuid) newtype. -/
structure MenuItemId where
  val : Uuid
deriving DecidableEq, Repr

/-- MenuItemName(pub String) newtype. -/
structure MenuItemName where
  val : String
deriving DecidableEq, Repr

/-- OrderLineItemId(pub Uuid) newtype. -/
structure OrderLineItemId where
  val : Uuid
deriving DecidableEq, Repr

/-- OrderLineItemQuantity(pub u32) newtype; u32 modelled as Nat. -/
structure OrderLineItemQuantity where
  val : Nat
deriving DecidableEq, Repr

/-- MenuItem struct. -/
structure MenuItem where
  id : MenuItemId
  name : MenuItemName
  price : Money
deriving DecidableEq, Repr

/-- RestaurantMenuCuisine enum (all 23 variants of the source). -/
inductive RestaurantMenuCuisine where
  | italian | indian | chinese | japanese | american | mexican | french
  | thai | vietnamese | greek | korean | spanish | lebanese | turkish
  | ethiopian | moroccan | egyptian | brazilian | polish | german
  | british | irish | other
deriving DecidableEq, Repr

/-- RestaurantMenu struct. -/
structure RestaurantMenu where
  menu_id : MenuId
  items : List MenuItem
  cuisine : RestaurantMenuCuisine
deriving DecidableEq, Repr

/-- OrderLineItem struct. -/
structure OrderLineItem where
  id : OrderLineItemId
  quantity : OrderLineItemQuantity
  menu_item_id : MenuItemId
  name : MenuItemName
deriving DecidableEq, Repr

/-- OrderStatus enum. -/
inductive OrderStatus where
  | created | prepared | cancelled | rejected
deriving DecidableEq, Repr

-- ######################################################################
-- Commands (src/domain/api.rs)
-- ######################################################################

/-- CreateRestaurant command. -/
structure CreateRestaurant where
  identifier : RestaurantId
  name : RestaurantName
  menu : RestaurantMenu
deriving DecidableEq, Repr

/-- ChangeRestaurantMenu command. -/
structure ChangeRestaurantMenu where
  identifier : RestaurantId
  menu : RestaurantMenu
deriving DecidableEq, Repr

/-- PlaceOrder command. -/
structure PlaceOrder where
  identifier : RestaurantId
  order_identifier : OrderId
  line_items : List OrderLineItem
deriving DecidableEq, Repr

/-- RestaurantCommand enum. -/
inductive RestaurantCommand where
  | createRestaurant (cmd : CreateRestaurant)
  | changeMenu (cmd : ChangeRestaurantMenu)
  | placeOrder (cmd : PlaceOrder)
deriving DecidableEq, Repr

/-- CreateOrder command. -/
structure CreateOrder where
  identifier : OrderId
  restaurant_identifier : RestaurantId
  line_items : List OrderLineItem
deriving DecidableEq, Repr

/-- MarkOrderAsPrepared command. -/
structure MarkOrderAsPrepared where
  identifier : OrderId
deriving DecidableEq, Repr

/-- OrderCommand enum. -/
inductive OrderCommand where
  | create (cmd : CreateOrder)
  | markAsPrepared (cmd : MarkOrderAsPrepared)
deriving DecidableEq, Repr

-- ######################################################################
-- Events (src/domain/api.rs)
-- ######################################################################

/-- RestaurantCreated event. -/
structure RestaurantCreated where
  identifier : RestaurantId
  name : RestaurantName
  menu : RestaurantMenu
deriving DecidableEq, Repr

/-- RestaurantNotCreated event. -/
structure RestaurantNotCreated where
  identifier : RestaurantId
  name : RestaurantName
  menu : RestaurantMenu
  reason : Reason
deriving DecidableEq, Repr

/-- RestaurantMenuChanged event. -/
structure RestaurantMenuChanged where
  identifier : RestaurantId
  menu : RestaurantMenu
deriving DecidableEq, Repr

/-- RestaurantMenuNotChanged event. -/
structure RestaurantMenuNotChanged where
  identifier : RestaurantId
  menu : RestaurantMenu
  reason : Reason
deriving DecidableEq, Repr

/-- OrderPlaced event (a Restaurant-stream event). -/
structure OrderPlaced where
  identifier : RestaurantId
  order_identifier : OrderId
  line_items : List OrderLineItem
deriving DecidableEq, Repr

/-- OrderNotPlaced event (a Restaurant-stream event). -/
structure OrderNotPlaced where
  identifier : RestaurantId
  order_identifier : OrderId
  line_items : List OrderLineItem
  reason : Reason
deriving DecidableEq, Repr

/-- RestaurantEvent enum (serde-internally-tagged, tag field "type"). -/
inductive RestaurantEvent where
  | created (e : RestaurantCreated)
  | notCreated (e : RestaurantNotCreated)
  | menuChanged (e : RestaurantMenuChanged)
  | menuNotChanged (e : RestaurantMenuNotChanged)
  | orderPlaced (e : OrderPlaced)
  | orderNotPlaced (e : OrderNotPlaced)
deriving DecidableEq, Repr

/-- OrderCreated event. -/
structure OrderCreated where
  identifier : OrderId
  restaurant_identifier : RestaurantId
  status : OrderStatus
  line_items : List OrderLineItem
deriving DecidableEq, Repr

/-- OrderNotCreated event. -/
structure OrderNotCreated where
  identifier : OrderId
  restaurant_identifier : RestaurantId
  line_items : List OrderLineItem
  reason : Reason
deriving DecidableEq, Repr

/-- OrderPrepared event. -/
structure OrderPrepared where
  identifier : OrderId
  status : OrderStatus
deriving DecidableEq, Repr

/-- OrderNotPrepared event. -/
structure OrderNotPrepared where
  identifier : OrderId
  reason : Reason
deriving DecidableEq, Repr

/-- OrderEvent enum (serde-internally-tagged, tag field "type"). -/
inductive OrderEvent where
  | created (e : OrderCreated)
  | notCreated (e : OrderNotCreated)
  | prepared (e : OrderPrepared)
  | notPrepared (e : OrderNotPrepared)
deriving DecidableEq, Repr

/-- Modelled from the spec: the Sum<A, B> type (variants First and Second)
comes from the external fmodel-rust crate, whose source is not in this
repository.  Per the spec, the payload encoding is "a self-describing
tagged-union representation keyed by variant name; tag field name is
type", i.e. the Sum wrapper is serde-untagged and serializes transparently
as its inner value (the saga stream decodes data written through this
wrapper directly as RestaurantEvent, which requires exactly this
representation). -/
inductive FSum (α β : Type) where
  | first (fst : α)
  | second (snd : β)
deriving DecidableEq, Repr

/-- Event = Sum<RestaurantEvent, OrderEvent> from src/domain/api.rs. -/
abbrev Event := FSum RestaurantEvent OrderEvent

/-- Command = Sum<RestaurantCommand, OrderCommand> from src/domain/api.rs. -/
abbrev Command := FSum RestaurantCommand OrderCommand

-- ######################################################################
-- Identifier and EventName traits (src/domain/api.rs)
-- ######################################################################

/-- Identifier for RestaurantEvent: the stream key (uuid as string). -/
def RestaurantEvent.identifier : RestaurantEvent → String
  | .created e => e.identifier.val.str
  | .notCreated e => e.identifier.val.str
  | .menuChanged e => e.identifier.val.str
  | .menuNotChanged e => e.identifier.val.str
  | .orderPlaced e => e.identifier.val.str
  | .orderNotPlaced e => e.identifier.val.str

/-- Identifier for OrderEvent: the stream key (uuid as string). -/
def OrderEvent.identifier : OrderEvent → String
  | .created e => e.identifier.val.str
  | .notCreated e => e.identifier.val.str
  | .prepared e => e.identifier.val.str
  | .notPrepared e => e.identifier.val.str

/-- Identifier for Event. -/
def Event.identifier : Event → String
  | .first e => e.identifier
  | .second e => e.identifier

/-- EventName for RestaurantEvent (impl EventName for RestaurantEvent). -/
def RestaurantEvent.event_name : RestaurantEvent → String
  | .created _ => "RestaurantCreated"
  | .notCreated _ => "RestaurantNotCreated"
  | .menuChanged _ => "RestaurantMenuChanged"
  | .menuNotChanged _ => "RestaurantMenuNotChanged"
  | .orderPlaced _ => "OrderPlaced"
  | .orderNotPlaced _ => "OrderNotPlaced"

/-- EventName for OrderEvent (impl EventName for OrderEvent). -/
def OrderEvent.event_name : OrderEvent → String
  | .created _ => "OrderCreated"
  | .notCreated _ => "OrderNotCreated"
  | .prepared _ => "OrderPrepared"
  | .notPrepared _ => "OrderNotPrepared"

/-- EventName for Event. -/
def Event.event_name : Event → String
  | .first e => e.event_name
  | .second e => e.event_name

-- ######################################################################
-- Pure domain functions (src/domain/)
-- ######################################################################

/-- Restaurant state (src/domain/restaurant_decider.rs). -/
structure Restaurant where
  identifier : RestaurantId
  name : RestaurantName
  menu : RestaurantMenu
deriving DecidableEq, Repr

/-- The decide closure of restaurant_decider()
(src/domain/restaurant_decider.rs). -/
def restaurant_decide : RestaurantCommand → Option Restaurant → List RestaurantEvent
  | .createRestaurant cmd, state =>
    if state.isSome then
      [.notCreated { identifier := cmd.identifier, name := cmd.name,
                     menu := cmd.menu, reason := ⟨"Restaurant already exists"⟩ }]
    else
      [.created { identifier := cmd.identifier, name := cmd.name, menu := cmd.menu }]
  | .changeMenu cmd, state =>
    if state.isSome then
      [.menuChanged { identifier := cmd.identifier, menu := cmd.menu }]
    else
      [.menuNotChanged { identifier := cmd.identifier, menu := cmd.menu,
                         reason := ⟨"Restaurant does not exist"⟩ }]
  | .placeOrder cmd, state =>
    if state.isSome then
      [.orderPlaced { identifier := cmd.identifier,
                      order_identifier := cmd.order_identifier,
                      line_items := cmd.line_items }]
    else
      [.orderNotPlaced { identifier := cmd.identifier,
                         order_identifier := cmd.order_identifier,
                         line_items := cmd.line_items,
                         reason := ⟨"Restaurant does not exist"⟩ }]

/-- The evolve closure of restaurant_decider()
(src/domain/restaurant_decider.rs). -/
def restaurant_evolve (state : Option Restaurant) : RestaurantEvent → Option Restaurant
  | .created e => some { identifier := e.identifier, name := e.name, menu := e.menu }
  | .notCreated _ => state
  | .menuChanged e => state.map fun s => { identifier := e.identifier, name := s.name, menu := e.menu }
  | .menuNotChanged _ => state
  | .orderPlaced e => state.map fun s => { identifier := e.identifier, name := s.name, menu := s.menu }
  | .orderNotPlaced _ => state

/-- Restaurant view state (src/domain/restaurant_view.rs). -/
structure RestaurantViewState where
  identifier : RestaurantId
  name : RestaurantName
  menu : RestaurantMenu
deriving DecidableEq, Repr

/-- The evolve closure of restaurant_view() (src/domain/restaurant_view.rs). -/
def restaurant_view_evolve (state : Option RestaurantViewState) :
    RestaurantEvent → Option RestaurantViewState
  | .created e => some { identifier := e.identifier, name := e.name, menu := e.menu }
  | .notCreated _ => state
  | .menuChanged e => state.map fun s => { identifier := e.identifier, name := s.name, menu := e.menu }
  | .menuNotChanged _ => state
  | .orderPlaced e => state.map fun s => { identifier := e.identifier, name := s.name, menu := s.menu }
  | .orderNotPlaced _ => state

/-- Order view state (src/domain/order_view.rs). -/
structure OrderViewState where
  identifier : OrderId
  restaurant_identifier : RestaurantId
  status : OrderStatus
  line_items : List OrderLineItem
deriving DecidableEq, Repr

/-- The evolve closure of order_view() (src/domain/order_view.rs). -/
def order_view_evolve (state : Option OrderViewState) : OrderEvent → Option OrderViewState
  | .created e => some { identifier := e.identifier,
                         restaurant_identifier := e.restaurant_identifier,
                         status := e.status, line_items := e.line_items }
  | .notCreated _ => state
  | .prepared e => state.map fun s => { identifier := e.identifier,
                                        restaurant_identifier := s.restaurant_identifier,
                                        status := e.status, line_items := s.line_items }
  | .notPrepared _ => state

/-- The react closure of order_saga() (src/domain/order_saga.rs). -/
def order_saga_react : RestaurantEvent → List OrderCommand
  | .orderPlaced e =>
    [.create { identifier := e.order_identifier,
               restaurant_identifier := e.identifier,
               line_items := e.line_items }]
  | .orderNotPlaced _ => []
  | .notCreated _ => []
  | .menuNotChanged _ => []
  | .created _ => []
  | .menuChanged _ => []

-- ######################################################################
-- JSON values and the serde payload encoding
-- ######################################################################

/-- A serde_json::Value tree.  Numbers are Rat: JSON has no non-finite
literals and every finite f64 is an exact rational. -/
inductive Json where
  | null
  | bool (b : Bool)
  | num (q : Rat)
  | str (s : String)
  | arr (xs : List Json)
  | obj (fields : List (String × Json))

/-- ErrorMessage (src/adapter/database/error.rs). -/
structure ErrorMessage where
  message : String
deriving DecidableEq, Repr

/-- Look a field up by name in a JSON object (first occurrence; the
encoders below never produce duplicate keys). -/
def getField : List (String × Json) → String → Option Json
  | [], _ => none
  | (k, v) :: rest, key => if k = key then some v else getField rest key

/-- Fetch a required struct field, as serde does for derived structs. -/
def reqField (fs : List (String × Json)) (key : String) : Except ErrorMessage Json :=
  match getField fs key with
  | some v => Except.ok v
  | none => Except.error ⟨("missing field ") ++ key⟩

/-- Decode a JSON string. -/
def decodeString : Json → Except ErrorMessage String
  | .str s => Except.ok s
  | _ => Except.error ⟨("invalid type: expected a string")⟩

/-- Decode a Uuid (serialized as its string form; format check elided). -/
def decodeUuid (j : Json) : Except ErrorMessage Uuid := do
  let s ← decodeString j
  return ⟨s⟩

/-- Decode an f64 (any JSON number). -/
def decodeF64 : Json → Except ErrorMessage Rat
  | .num q => Except.ok q
  | _ => Except.error ⟨("invalid type: expected a number")⟩

/-- Decode a u32 (an integral, non-negative JSON number; the 2^32 bound is
elided, which only widens the decode domain). -/
def decodeU32 : Json → Except ErrorMessage Nat
  | .num q => if q.den = 1 ∧ 0 ≤ q.num then Except.ok q.num.toNat
              else Except.error ⟨("invalid value: expected u32")⟩
  | _ => Except.error ⟨("invalid type: expected a number")⟩

/-- The serde variant name of a RestaurantMenuCuisine value. -/
def cuisineName : RestaurantMenuCuisine → String
  | .italian => "Italian"
  | .indian => "Indian"
  | .chinese => "Chinese"
  | .japanese => "Japanese"
  | .american => "American"
  | .mexican => "Mexican"
  | .french => "French"
  | .thai => "Thai"
  | .vietnamese => "Vietnamese"
  | .greek => "Greek"
  | .korean => "Korean"
  | .spanish => "Spanish"
  | .lebanese => "Lebanese"
  | .turkish => "Turkish"
  | .ethiopian => "Ethiopian"
  | .moroccan => "Moroccan"
  | .egyptian => "Egyptian"
  | .brazilian => "Brazilian"
  | .polish => "Polish"
  | .german => "German"
  | .british => "British"
  | .irish => "Irish"
  | .other => "Other"

/-- Decode a RestaurantMenuCuisine (externally tagged unit variants encode
as plain variant-name strings). -/
def decodeCuisine : Json → Except ErrorMessage RestaurantMenuCuisine
  | .str s =>
    match s with
    | "Italian" => Except.ok .italian
    | "Indian" => Except.ok .indian
    | "Chinese" => Except.ok .chinese
    | "Japanese" => Except.ok .japanese
    | "American" => Except.ok .american
    | "Mexican" => Except.ok .mexican
    | "French" => Except.ok .french
    | "Thai" => Except.ok .thai
    | "Vietnamese" => Except.ok .vietnamese
    | "Greek" => Except.ok .greek
    | "Korean" => Except.ok .korean
    | "Spanish" => Except.ok .spanish
    | "Lebanese" => Except.ok .lebanese
    | "Turkish" => Except.ok .turkish
    | "Ethiopian" => Except.ok .ethiopian
    | "Moroccan" => Except.ok .moroccan
    | "Egyptian" => Except.ok .egyptian
    | "Brazilian" => Except.ok .brazilian
    | "Polish" => Except.ok .polish
    | "German" => Except.ok .german
    | "British" => Except.ok .british
    | "Irish" => Except.ok .irish
    | "Other" => Except.ok .other
    | _ => Except.error ⟨("unknown variant of RestaurantMenuCuisine")⟩
  | _ => Except.error ⟨("invalid type: expected a string")⟩

/-- The serde variant name of an OrderStatus value. -/
def orderStatusName : OrderStatus → String
  | .created => "Created"
  | .prepared => "Prepared"
  | .cancelled => "Cancelled"
  | .rejected => "Rejected"

/-- Decode an OrderStatus. -/
def decodeOrderStatus : Json → Except ErrorMessage OrderStatus
  | .str s =>
    match s with
    | "Created" => Except.ok .created
    | "Prepared" => Except.ok .prepared
    | "Cancelled" => Except.ok .cancelled
    | "Rejected" => Except.ok .rejected
    | _ => Except.error ⟨("unknown variant of OrderStatus")⟩
  | _ => Except.error ⟨("invalid type: expected a string")⟩

/-- Serialize a MenuItem (fields in declaration order). -/
def encodeMenuItem (m : MenuItem) : Json :=
  .obj [("id", .str m.id.val.str), ("name", .str m.name.val), ("price", .num m.price.val)]

/-- Deserialize a MenuItem. -/
def decodeMenuItem : Json → Except ErrorMessage MenuItem
  | .obj fs => do
    let idv ← reqField fs ("id")
    let id ← decodeUuid idv
    let namev ← reqField fs ("name")
    let name ← decodeString namev
    let pricev ← reqField fs ("price")
    let price ← decodeF64 pricev
    return ⟨⟨id⟩, ⟨name⟩, ⟨price⟩⟩
  | _ => Except.error ⟨("invalid type: expected a map")⟩

/-- Deserialize a list of MenuItem values. -/
def decodeMenuItems : List Json → Except ErrorMessage (List MenuItem)
  | [] => Except.ok []
  | j :: rest => do
    let m ← decodeMenuItem j
    let ms ← decodeMenuItems rest
    return m :: ms

/-- Deserialize a JSON array of MenuItem values. -/
def decodeMenuItemsJson : Json → Except ErrorMessage (List MenuItem)
  | .arr xs => decodeMenuItems xs
  | _ => Except.error ⟨("invalid type: expected a sequence")⟩

/-- Serialize a RestaurantMenu (fields in declaration order). -/
def encodeMenu (m : RestaurantMenu) : Json :=
  .obj [("menu_id", .str m.menu_id.val.str),
        ("items", .arr (m.items.map encodeMenuItem)),
        ("cuisine", .str (cuisineName m.cuisine))]

/-- Deserialize a RestaurantMenu. -/
def decodeMenu : Json → Except ErrorMessage RestaurantMenu
  | .obj fs => do
    let midv ← reqField fs ("menu_id")
    let mid ← decodeUuid midv
    let itemsv ← reqField fs ("items")
    let items ← decodeMenuItemsJson itemsv
    let cuisinev ← reqField fs ("cuisine")
    let cuisine ← decodeCuisine cuisinev
    return ⟨⟨mid⟩, items, cuisine⟩
  | _ => Except.error ⟨("invalid type: expected a map")⟩

/-- Serialize an OrderLineItem (fields in declaration order). -/
def encodeLineItem (li : OrderLineItem) : Json :=
  .obj [("id", .str li.id.val.str),
        ("quantity", .num (li.quantity.val : Rat)),
        ("menu_item_id", .str li.menu_item_id.val.str),
        ("name", .str li.name.val)]

/-- Deserialize an OrderLineItem. -/
def decodeLineItem : Json → Except ErrorMessage OrderLineItem
  | .obj fs => do
    let idv ← reqField fs ("id")
    let id ← decodeUuid idv
    let qv ← reqField fs ("quantity")
    let q ← decodeU32 qv
    let miv ← reqField fs ("menu_item_id")
    let mi ← decodeUuid miv
    let namev ← reqField fs ("name")
    let name ← decodeString namev
    return ⟨⟨id⟩, ⟨q⟩, ⟨mi⟩, ⟨name⟩⟩
  | _ => Except.error ⟨("invalid type: expected a map")⟩

/-- Deserialize a list of OrderLineItem values. -/
def decodeLineItems : List Json → Except ErrorMessage (List OrderLineItem)
  | [] => Except.ok []
  | j :: rest => do
    let li ← decodeLineItem j
    let lis ← decodeLineItems rest
    return li :: lis

/-- Deserialize a JSON array of OrderLineItem values. -/
def decodeLineItemsJson : Json → Except ErrorMessage (List OrderLineItem)
  | .arr xs => decodeLineItems xs
  | _ => Except.error ⟨("invalid type: expected a sequence")⟩

/-- serde_json::to_value for RestaurantEvent: internally tagged, tag field
"type", then the variant struct's fields in declaration order. -/
def encodeRestaurantEvent : RestaurantEvent → Json
  | .created e =>
    .obj [("type", .str ("Created")),
          ("identifier", .str e.identifier.val.str),
          ("name", .str e.name.val),
          ("menu", encodeMenu e.menu)]
  | .notCreated e =>
    .obj [("type", .str ("NotCreated")),
          ("identifier", .str e.identifier.val.str),
          ("name", .str e.name.val),
          ("menu", encodeMenu e.menu),
          ("reason", .str e.reason.val)]
  | .menuChanged e =>
    .obj [("type", .str ("MenuChanged")),
          ("identifier", .str e.identifier.val.str),
          ("menu", encodeMenu e.menu)]
  | .menuNotChanged e =>
    .obj [("type", .str ("MenuNotChanged")),
          ("identifier", .str e.identifier.val.str),
          ("menu", encodeMenu e.menu),
          ("reason", .str e.reason.val)]
  | .orderPlaced e =>
    .obj [("type", .str ("OrderPlaced")),
          ("identifier", .str e.identifier.val.str),
          ("order_identifier", .str e.order_identifier.val.str),
          ("line_items", .arr (e.line_items.map encodeLineItem))]
  | .orderNotPlaced e =>
    .obj [("type", .str ("OrderNotPlaced")),
          ("identifier", .str e.identifier.val.str),
          ("order_identifier", .str e.order_identifier.val.str),
          ("line_items", .arr (e.line_items.map encodeLineItem)),
          ("reason", .str e.reason.val)]

/-- serde_json::from_value for RestaurantEvent: dispatch on the "type" tag,
then read the variant struct's fields (unknown fields ignored, missing
fields an error, as serde derives). -/
def decodeRestaurantEvent : Json → Except ErrorMessage RestaurantEvent
  | .obj fs =>
    match getField fs ("type") with
    | some (.str tag) =>
      match tag with
      | "Created" => do
        let idv ← reqField fs ("identifier")
        let id ← decodeUuid idv
        let namev ← reqField fs ("name")
        let name ← decodeString namev
        let menuv ← reqField fs ("menu")
        let menu ← decodeMenu menuv
        return .created ⟨⟨id⟩, ⟨name⟩, menu⟩
      | "NotCreated" => do
        let idv ← reqField fs ("identifier")
        let id ← decodeUuid idv
        let namev ← reqField fs ("name")
        let name ← decodeString namev
        let menuv ← reqField fs ("menu")
        let menu ← decodeMenu menuv
        let reasonv ← reqField fs ("reason")
        let reason ← decodeString reasonv
        return .notCreated ⟨⟨id⟩, ⟨name⟩, menu, ⟨reason⟩⟩
      | "MenuChanged" => do
        let idv ← reqField fs ("identifier")
        let id ← decodeUuid idv
        let menuv ← reqField fs ("menu")
        let menu ← decodeMenu menuv
        return .menuChanged ⟨⟨id⟩, menu⟩
      | "MenuNotChanged" => do
        let idv ← reqField fs ("identifier")
        let id ← decodeUuid idv
        let menuv ← reqField fs ("menu")
        let menu ← decodeMenu menuv
        let reasonv ← reqField fs ("reason")
        let reason ← decodeString reasonv
        return .menuNotChanged ⟨⟨id⟩, menu, ⟨reason⟩⟩
      | "OrderPlaced" => do
        let idv ← reqField fs ("identifier")
        let id ← decodeUuid idv
        let oidv ← reqField fs ("order_identifier")
        let oid ← decodeUuid oidv
        let liv ← reqField fs ("line_items")
        let lis ← decodeLineItemsJson liv
        return .orderPlaced ⟨⟨id⟩, ⟨oid⟩, lis⟩
      | "OrderNotPlaced" => do
        let idv ← reqField fs ("identifier")
        let id ← decodeUuid idv
        let oidv ← reqField fs ("order_identifier")
        let oid ← decodeUuid oidv
        let liv ← reqField fs ("line_items")
        let lis ← decodeLineItemsJson liv
        let reasonv ← reqField fs ("reason")
        let reason ← decodeString reasonv
        return .orderNotPlaced ⟨⟨id⟩, ⟨oid⟩, lis, ⟨reason⟩⟩
      | _ => Except.error ⟨("unknown variant of RestaurantEvent")⟩
    | some _ => Except.error ⟨("invalid type: tag is not a string")⟩
    | none => Except.error ⟨("missing field type")⟩
  | _ => Except.error ⟨("invalid type: expected a map")⟩

/-- serde_json::to_value for OrderEvent: internally tagged, tag field
"type", then the variant struct's fields in declaration order. -/
def encodeOrderEvent : OrderEvent → Json
  | .created e =>
    .obj [("type", .str ("Created")),
          ("identifier", .str e.identifier.val.str),
          ("restaurant_identifier", .str e.restaurant_identifier.val.str),
          ("status", .str (orderStatusName e.status)),
          ("line_items", .arr (e.line_items.map encodeLineItem))]
  | .notCreated e =>
    .obj [("type", .str ("NotCreated")),
          ("identifier", .str e.identifier.val.str),
          ("restaurant_identifier", .str e.restaurant_identifier.val.str),
          ("line_items", .arr (e.line_items.map encodeLineItem)),
          ("reason", .str e.reason.val)]
  | .prepared e =>
    .obj [("type", .str ("Prepared")),
          ("identifier", .str e.identifier.val.str),
          ("status", .str (orderStatusName e.status))]
  | .notPrepared e =>
    .obj [("type", .str ("NotPrepared")),
          ("identifier", .str e.identifier.val.str),
          ("reason", .str e.reason.val)]

/-- serde_json::from_value for OrderEvent. -/
def decodeOrderEvent : Json → Except ErrorMessage OrderEvent
  | .obj fs =>
    match getField fs ("type") with
    | some (.str tag) =>
      match tag with
      | "Created" => do
        let idv ← reqField fs ("identifier")
        let id ← decodeUuid idv
        let ridv ← reqField fs ("restaurant_identifier")
        let rid ← decodeUuid ridv
        let statusv ← reqField fs ("status")
        let status ← decodeOrderStatus statusv
        let liv ← reqField fs ("line_items")
        let lis ← decodeLineItemsJson liv
        return .created ⟨⟨id⟩, ⟨rid⟩, status, lis⟩
      | "NotCreated" => do
        let idv ← reqField fs ("identifier")
        let id ← decodeUuid idv
        let ridv ← reqField fs ("restaurant_identifier")
        let rid ← decodeUuid ridv
        let liv ← reqField fs ("line_items")
        let lis ← decodeLineItemsJson liv
        let reasonv ← reqField fs ("reason")
        let reason ← decodeString reasonv
        return .notCreated ⟨⟨id⟩, ⟨rid⟩, lis, ⟨reason⟩⟩
      | "Prepared" => do
        let idv ← reqField fs ("identifier")
        let id ← decodeUuid idv
        let statusv ← reqField fs ("status")
        let status ← decodeOrderStatus statusv
        return .prepared ⟨⟨id⟩, status⟩
      | "NotPrepared" => do
        let idv ← reqField fs ("identifier")
        let id ← decodeUuid idv
        let reasonv ← reqField fs ("reason")
        let reason ← decodeString reasonv
        return .notPrepared ⟨⟨id⟩, ⟨reason⟩⟩
      | _ => Except.error ⟨("unknown variant of OrderEvent")⟩
    | some _ => Except.error ⟨("invalid type: tag is not a string")⟩
    | none => Except.error ⟨("missing field type")⟩
  | _ => Except.error ⟨("invalid type: expected a map")⟩

/-- serde_json::to_value for Event = Sum<RestaurantEvent, OrderEvent>:
the untagged Sum serializes transparently as its payload. -/
def encodeEvent : Event → Json
  | .first e => encodeRestaurantEvent e
  | .second e => encodeOrderEvent e

/-- serde_json::from_value for Event: untagged enums try the variants in
declaration order (First, then Second). -/
def decodeEvent (j : Json) : Except ErrorMessage Event :=
  match decodeRestaurantEvent j with
  | .ok e => Except.ok (.first e)
  | .error _ =>
    match decodeOrderEvent j with
    | .ok e => Except.ok (.second e)
    | .error _ =>
      Except.error ⟨("data did not match any variant of untagged enum Sum")⟩

-- ######################################################################
-- Database entities and the event store (src/adapter/database/)
-- ######################################################################

/-- NewEventEntity (src/adapter/database/entity.rs). -/
structure NewEventEntity where
  decider : String
  decider_id : String
  event : String
  data : Json
  event_id : Uuid
  command_id : Option Uuid
  previous_id : Option Uuid
  final : Bool

/-- EventEntity (src/adapter/database/entity.rs).  created_at is the
database clock value; it is modelled as an uninterpreted optional number
(no claim mentions it). -/
structure EventEntity where
  decider : String
  decider_id : String
  event : String
  data : Json
  event_id : Uuid
  command_id : Option Uuid
  previous_id : Option Uuid
  final : Bool
  created_at : Option Nat
  offset : Int

/-- Modelled from the spec: the events database.  The SQL schema and
migrations are not under src/, so the `events` table and its constraints
follow section 3 of the specification: rows in insertion order with
strictly increasing offsets, a registration table (decider, event_name)
enforced as a foreign key, a globally unique event_id, and the
optimistic-concurrency uniqueness of (decider, decider_id, previous_id). -/
structure EventStore where
  registered : List (String × String)
  rows : List EventEntity

/-- append_event (src/adapter/database/queries.rs): INSERT INTO events,
subject to the store's constraints; on success the row is returned with
its assigned offset, on constraint violation the store is unchanged and
an error is returned. -/
def append_event (e : NewEventEntity) (st : EventStore) :
    Except ErrorMessage (EventEntity × EventStore) :=
  if ¬ (st.registered.any fun p => p.1 = e.decider ∧ p.2 = e.event) then
    Except.error ⟨("insert into events violates foreign key constraint on deciders")⟩
  else if st.rows.any fun r => r.event_id = e.event_id then
    Except.error ⟨("duplicate key value violates unique constraint events_pkey")⟩
  else if st.rows.any fun r =>
      r.decider = e.decider ∧ r.decider_id = e.decider_id ∧
      e.previous_id.isSome ∧ r.previous_id = e.previous_id then
    Except.error ⟨("duplicate key value violates unique constraint events_decider_id_previous_id_key")⟩
  else
    let row : EventEntity :=
      { decider := e.decider, decider_id := e.decider_id, event := e.event,
        data := e.data, event_id := e.event_id, command_id := e.command_id,
        previous_id := e.previous_id, final := e.final, created_at := none,
        offset := (st.rows.length : Int) }
    Except.ok (row, { st with rows := st.rows ++ [row] })

/-- list_events (src/adapter/database/queries.rs): SELECT * FROM events
WHERE decider_id = $1 ORDER BY offset.  Rows are kept in offset order, so
the filter already returns them sorted. -/
def list_events (decider_id : String) (st : EventStore) : List EventEntity :=
  st.rows.filter fun r => r.decider_id = decider_id

/-- get_latest_event (src/adapter/database/queries.rs): SELECT ...
ORDER BY offset DESC LIMIT 1 run through fetch_one, which produces
sqlx::Error::RowNotFound when the stream has no events. -/
def get_latest_event (decider_id : String) (st : EventStore) :
    Except ErrorMessage EventEntity :=
  match (list_events decider_id st).getLast? with
  | some r => Except.ok r
  | none =>
    Except.error ⟨("no rows returned by a query that expected to return at least one row")⟩

-- ######################################################################
-- Repositories (src/adapter/repository/)
-- ######################################################################

/-- ToNewEventEntity for RestaurantEvent
(src/adapter/repository/restaurant_event_repository.rs).  The fresh
Uuid::new_v4() is passed in as event_id; data is the serde encoding. -/
def RestaurantEvent.to_new_event_entity (e : RestaurantEvent) (version : Option Uuid)
    (event_id : Uuid) : NewEventEntity :=
  match e with
  | .created ev =>
    { event := "RestaurantCreated", event_id := event_id, decider := "Restaurant",
      decider_id := ev.identifier.val.str, data := encodeRestaurantEvent e,
      command_id := none, previous_id := version, final := false }
  | .notCreated ev =>
    { event := "RestaurantNotCreated", event_id := event_id, decider := "Restaurant",
      decider_id := ev.identifier.val.str, data := encodeRestaurantEvent e,
      command_id := none, previous_id := version, final := false }
  | .menuChanged ev =>
    { event := "RestaurantMenuChanged", event_id := event_id, decider := "Restaurant",
      decider_id := ev.identifier.val.str, data := encodeRestaurantEvent e,
      command_id := none, previous_id := version, final := false }
  | .menuNotChanged ev =>
    { event := "RestaurantMenuNotChanged", event_id := event_id, decider := "Restaurant",
      decider_id := ev.identifier.val.str, data := encodeRestaurantEvent e,
      command_id := none, previous_id := version, final := false }
  | .orderPlaced ev =>
    { event := "RestaurantOrderPlaced", event_id := event_id, decider := "Restaurant",
      decider_id := ev.identifier.val.str, data := encodeRestaurantEvent e,
      command_id := none, previous_id := version, final := false }
  | .orderNotPlaced ev =>
    { event := "RestaurantOrderNotPlaced", event_id := event_id, decider := "Restaurant",
      decider_id := ev.identifier.val.str, data := encodeRestaurantEvent e,
      command_id := none, previous_id := version, final := false }

/-- ToNewEventEntity for OrderEvent
(src/adapter/repository/order_event_repository.rs). -/
def OrderEvent.to_new_event_entity (e : OrderEvent) (version : Option Uuid)
    (event_id : Uuid) : NewEventEntity :=
  match e with
  | .created ev =>
    { event := "OrderCreated", event_id := event_id, decider := "Order",
      decider_id := ev.identifier.val.str, data := encodeOrderEvent e,
      command_id := none, previous_id := version, final := false }
  | .notCreated ev =>
    { event := "OrderNotCreated", event_id := event_id, decider := "Order",
      decider_id := ev.identifier.val.str, data := encodeOrderEvent e,
      command_id := none, previous_id := version, final := false }
  | .prepared ev =>
    { event := "OrderPrepared", event_id := event_id, decider := "Order",
      decider_id := ev.identifier.val.str, data := encodeOrderEvent e,
      command_id := none, previous_id := version, final := false }
  | .notPrepared ev =>
    { event := "OrderNotPrepared", event_id := event_id, decider := "Order",
      decider_id := ev.identifier.val.str, data := encodeOrderEvent e,
      command_id := none, previous_id := version, final := false }

/-- ToNewEventEntity for Event = Sum<RestaurantEvent, OrderEvent>
(src/adapter/repository/event_repository.rs).  The per-variant arms of the
source build exactly the entities of the two inner impls (same names,
deciders and fields), with data the encoding of the Sum (transparent). -/
def Event.to_new_event_entity (e : Event) (version : Option Uuid)
    (event_id : Uuid) : NewEventEntity :=
  match e with
  | .first re => re.to_new_event_entity version event_id
  | .second oe => oe.to_new_event_entity version event_id

/-- ToEvent for EventEntity (src/adapter/repository/event_repository.rs):
serde_json::from_value of the stored data. -/
def to_event (e : EventEntity) : Except ErrorMessage Event :=
  decodeEvent e.data

/-- ToRestaurantEvent for EventEntity
(src/adapter/repository/restaurant_event_repository.rs). -/
def to_restaurant_event (e : EventEntity) : Except ErrorMessage RestaurantEvent :=
  decodeRestaurantEvent e.data

/-- ToOrderEvent for EventEntity
(src/adapter/repository/order_event_repository.rs). -/
def to_order_event (e : EventEntity) : Except ErrorMessage OrderEvent :=
  decodeOrderEvent e.data

/-- View a NewEventEntity as the row the database hands back
(RETURNING *), at a given offset. -/
def NewEventEntity.toEventEntity (n : NewEventEntity) (offset : Int) : EventEntity :=
  { decider := n.decider, decider_id := n.decider_id, event := n.event,
    data := n.data, event_id := n.event_id, command_id := n.command_id,
    previous_id := n.previous_id, final := n.final, created_at := none,
    offset := offset }

/-- The save loop shared verbatim by AggregateEventRepository::save,
RestaurantEventRepository::save and OrderEventRepository::save: walk the
event list, build each entity from the running latest_version and a fresh
id (ids i, ids (i+1), ... model the successive Uuid::new_v4() draws),
append it, advance latest_version to the new event_id.  The ? operator
stops at the first append error; earlier appends are not rolled back, so
the (possibly updated) store is returned alongside the outcome. -/
def save_loop (toEntity : α → Option Uuid → Uuid → NewEventEntity) (ids : Nat → Uuid) :
    Nat → List α → Option Uuid → EventStore →
    (Except ErrorMessage (List (α × Uuid)) × EventStore)
  | _, [], _, st => (Except.ok [], st)
  | i, e :: rest, latest_version, st =>
    let req := toEntity e latest_version (ids i)
    match append_event req st with
    | .error err => (Except.error err, st)
    | .ok (_, st') =>
      match save_loop toEntity ids (i + 1) rest (some req.event_id) st' with
      | (.ok res, st'') => (Except.ok ((e, req.event_id) :: res), st'')
      | (.error err, st'') => (Except.error err, st'')

/-- AggregateEventRepository::save
(src/adapter/repository/event_repository.rs lines 38-54). -/
def aggregate_repository_save (events : List Event) (latest_version : Option Uuid)
    (ids : Nat → Uuid) (st : EventStore) :
    (Except ErrorMessage (List (Event × Uuid)) × EventStore) :=
  save_loop Event.to_new_event_entity ids 0 events latest_version st

/-- RestaurantEventRepository::save
(src/adapter/repository/restaurant_event_repository.rs lines 43-59). -/
def restaurant_repository_save (events : List RestaurantEvent)
    (latest_version : Option Uuid) (ids : Nat → Uuid) (st : EventStore) :
    (Except ErrorMessage (List (RestaurantEvent × Uuid)) × EventStore) :=
  save_loop RestaurantEvent.to_new_event_entity ids 0 events latest_version st

/-- OrderEventRepository::version_provider
(src/adapter/repository/order_event_repository.rs lines 55-59):
get_latest_event of the event's stream, mapping a found row to
Some(event_id); the RowNotFound error of an empty stream propagates. -/
def order_repository_version_provider (event : OrderEvent) (st : EventStore) :
    Except ErrorMessage (Option Uuid) :=
  match get_latest_event event.identifier st with
  | .ok row => Except.ok (some row.event_id)
  | .error err => Except.error err

/-- OrderEventRepository::save
(src/adapter/repository/order_event_repository.rs lines 41-54): probe the
version of the FIRST event's stream only (events.first().unwrap(); the
panic on an empty slice is modelled as an error), then run the same loop,
chaining every event - whatever its stream - from that single running
version. -/
def order_repository_save (events : List OrderEvent) (ids : Nat → Uuid)
    (st : EventStore) :
    (Except ErrorMessage (List (OrderEvent × Uuid)) × EventStore) :=
  match events with
  | [] => (Except.error ⟨("panicked at Option::unwrap on a None value")⟩, st)
  | e :: _ =>
    match order_repository_version_provider e st with
    | .error err => (Except.error err, st)
    | .ok latest_version => save_loop OrderEvent.to_new_event_entity ids 0 events latest_version st

-- ######################################################################
-- Stream dispatch passes (src/adapter/event_stream/)
-- ######################################################################

/-- An ack_event or nack_event call observed during a dispatch pass. -/
inductive StreamAction where
  | ack (view : String) (offset : Int) (decider_id : String)
  | nack (view : String) (decider_id : String)
deriving DecidableEq, Repr

/-- How a dispatch pass ended: normal return, an error return, or a
process abort (panic! / .unwrap() on an error). -/
inductive StreamOutcome where
  | ok
  | error (e : ErrorMessage)
  | panic (msg : String)
deriving DecidableEq, Repr

/-- The observable behaviour of one dispatch pass: the ack/nack calls it
made, in order, and how it ended. -/
structure PassResult where
  actions : List StreamAction
  outcome : StreamOutcome
deriving DecidableEq, Repr

/-- stream_events_to_view (src/adapter/event_stream/view_stream.rs):
one pass of the view subscriber.  `fetched` is the result of
stream_events("view") (the stored-procedure primitive, not under src/);
`restaurant_handle` and `order_handle` are the materialized views'
handle calls.  Note the ? on to_event: a decode failure returns the error
without calling ack or nack. -/
def stream_events_to_view (fetched : Except ErrorMessage (Option EventEntity))
    (restaurant_handle : Event → Except ErrorMessage Unit)
    (order_handle : Event → Except ErrorMessage Unit) : PassResult :=
  match fetched with
  | .error e => ⟨[], .error e⟩
  | .ok none => ⟨[], .ok⟩
  | .ok (some ent) =>
    match ent.decider with
    | "Restaurant" =>
      match to_event ent with
      | .error e => ⟨[], .error e⟩
      | .ok ev =>
        match restaurant_handle ev with
        | .ok _ => ⟨[.ack "view" ent.offset ent.decider_id], .ok⟩
        | .error _ => ⟨[.nack "view" ent.decider_id], .ok⟩
    | "Order" =>
      match to_event ent with
      | .error e => ⟨[], .error e⟩
      | .ok ev =>
        match order_handle ev with
        | .ok _ => ⟨[.ack "view" ent.offset ent.decider_id], .ok⟩
        | .error _ => ⟨[.nack "view" ent.decider_id], .ok⟩
    | _ => ⟨[.ack "view" ent.offset ent.decider_id], .ok⟩

/-- stream_events_to_saga (src/adapter/event_stream/saga_stream.rs):
one pass of the saga subscriber.  A fetch error hits panic!; a decode
failure hits .unwrap() on the Err, i.e. a panic, before any ack or nack. -/
def stream_events_to_saga (fetched : Except ErrorMessage (Option EventEntity))
    (saga_handle : RestaurantEvent → Except ErrorMessage Unit) : PassResult :=
  match fetched with
  | .error e => ⟨[], .panic e.message⟩
  | .ok none => ⟨[], .ok⟩
  | .ok (some ent) =>
    match ent.decider with
    | "Restaurant" =>
      match to_restaurant_event ent with
      | .error e => ⟨[], .panic e.message⟩
      | .ok ev =>
        match saga_handle ev with
        | .ok _ => ⟨[.ack "saga" ent.offset ent.decider_id], .ok⟩
        | .error _ => ⟨[.nack "saga" ent.decider_id], .ok⟩
    | _ => ⟨[.ack "saga" ent.offset ent.decider_id], .ok⟩

-- ######################################################################
-- Sample inputs used by witnesses and counterexamples
-- ######################################################################

/-- A sample OrderPlaced payload. -/
def sampleOrderPlaced : OrderPlaced :=
  { identifier := ⟨⟨("r1")⟩⟩, order_identifier := ⟨⟨("o1")⟩⟩, line_items := [] }

/-- A stored event row whose data is not a JSON object, so neither
to_event nor to_restaurant_event can parse it. -/
def undecodableRow : EventEntity :=
  { decider := "Restaurant", decider_id := "r1", event := "RestaurantCreated",
    data := Json.null, event_id := ⟨("u0")⟩, command_id := none,
    previous_id := none, final := false, created_at := none, offset := 0 }

-- ######################################################################
-- Helper lemmas
-- ######################################################################

/-- The causal-chain shape of a run of appended rows: the first row points
at the given version, every later row points at the event_id of the row
right before it. -/
def chained : Option Uuid → List EventEntity → Prop
  | _, [] => True
  | v, r :: rest => r.previous_id = v ∧ chained (some r.event_id) rest

/-- The appended rows take their event_ids from the fresh-id supply, in
order, starting at draw i. -/
def drawn (ids : Nat → Uuid) : Nat → List EventEntity → Prop
  | _, [] => True
  | i, r :: rest => r.event_id = ids i ∧ drawn ids (i + 1) rest

/-- A sample menu used by concrete inputs. -/
def sampleMenu : RestaurantMenu :=
  { menu_id := ⟨⟨("m1")⟩⟩, items := [], cuisine := .italian }

/-- Store for the C1 scenario: both restaurant event names registered, and
one pre-existing row whose event_id is u0. -/
def c1Store : EventStore :=
  ⟨[("Restaurant", "RestaurantCreated"), ("Restaurant", "RestaurantMenuChanged")],
   [{ decider := "Restaurant", decider_id := "r9", event := "RestaurantCreated",
      data := Json.null, event_id := ⟨("u0")⟩, command_id := none,
      previous_id := none, final := false, created_at := none, offset := 0 }]⟩

/-- A two-event batch for one restaurant stream. -/
def c1Events : List Event :=
  [.first (.created { identifier := ⟨⟨("r1")⟩⟩, name := ⟨("Chez")⟩, menu := sampleMenu }),
   .first (.menuChanged { identifier := ⟨⟨("r1")⟩⟩, menu := sampleMenu })]

/-- An id supply whose second draw collides with the stored event_id u0
(Uuid::new_v4 gives no uniqueness guarantee; the store's constraint does). -/
def c1Ids : Nat → Uuid := fun n => if n = 0 then ⟨("u1")⟩ else ⟨("u0")⟩

/-- Store for the C2 scenario: order event names registered, one existing
event in stream o1. -/
def c2Store : EventStore :=
  ⟨[("Order", "OrderCreated"), ("Order", "OrderPrepared")],
   [{ decider := "Order", decider_id := "o1", event := "OrderCreated",
      data := Json.null, event_id := ⟨("u0")⟩, command_id := none,
      previous_id := none, final := false, created_at := none, offset := 0 }]⟩

/-- A batch containing events of two distinct order streams (o1 and o2). -/
def c2Events : List OrderEvent :=
  [.prepared { identifier := ⟨⟨("o1")⟩⟩, status := .prepared },
   .created { identifier := ⟨⟨("o2")⟩⟩, restaurant_identifier := ⟨⟨("r1")⟩⟩,
              status := .created, line_items := [] }]

/-- A fresh id supply for the C2 scenario. -/
def c2Ids : Nat → Uuid := fun n => if n = 0 then ⟨("u1")⟩ else ⟨("u2")⟩

/-- Store for the C3 witness: registrations only, no rows. -/
def c3Store : EventStore :=
  ⟨[("Restaurant", "RestaurantCreated"), ("Restaurant", "RestaurantMenuChanged")], []⟩

/-- A two-event restaurant batch for the C3 witness. -/
def c3Events : List RestaurantEvent :=
  [.created { identifier := ⟨⟨("r1")⟩⟩, name := ⟨("Chez")⟩, menu := sampleMenu },
   .menuChanged { identifier := ⟨⟨("r1")⟩⟩, menu := sampleMenu }]

/-- A fresh id supply for the C3 witness. -/
def c3Ids : Nat → Uuid := fun n => if n = 0 then ⟨("u1")⟩ else ⟨("u2")⟩

/-- The empty event store (no registrations, no rows). -/
def emptyStore : EventStore := ⟨[], []⟩

theorem append_event_ok {e : NewEventEntity} {st : EventStore} {row : EventEntity}
    {st' : EventStore} (h : append_event e st = Except.ok (row, st')) :
    row.event_id = e.event_id ∧ row.previous_id = e.previous_id ∧
    st'.rows = st.rows ++ [row] := by
  unfold append_event at h
  split at h
  · exact absurd h (by simp)
  · split at h
    · exact absurd h (by simp)
    · split at h
      · exact absurd h (by simp)
      · injection h with h
        injection h with h1 h2
        subst h1
        subst h2
        exact ⟨rfl, rfl, rfl⟩

theorem save_loop_spec {α : Type} (toEntity : α → Option Uuid → Uuid → NewEventEntity)
    (hprev : ∀ e v u, (toEntity e v u).previous_id = v)
    (hid : ∀ e v u, (toEntity e v u).event_id = u) (ids : Nat → Uuid) :
    ∀ (events : List α) (i : Nat) (v : Option Uuid) (st : EventStore),
    ∃ rs : List EventEntity,
      (save_loop toEntity ids i events v st).2.rows = st.rows ++ rs ∧
      rs.length ≤ events.length ∧
      ((save_loop toEntity ids i events v st).1.isOk = true → rs.length = events.length) ∧
      ((save_loop toEntity ids i events v st).1.isOk = false → rs.length < events.length) ∧
      chained v rs ∧ drawn ids i rs
  | [], i, v, st => by
    refine ⟨[], by simp [save_loop], by simp, fun _ => rfl, fun h => ?_, trivial, trivial⟩
    exact absurd h (by simp [save_loop, Except.isOk, Except.toBool])
  | e :: rest, i, v, st => by
    cases happ : append_event (toEntity e v (ids i)) st with
    | error err =>
      refine ⟨[], by simp [save_loop, happ], by simp, fun h => ?_, fun _ => by simp,
              trivial, trivial⟩
      exact absurd h (by simp [save_loop, happ, Except.isOk, Except.toBool])
    | ok p =>
      obtain ⟨row, st'⟩ := p
      obtain ⟨hrid, hrprev, hrows⟩ := append_event_ok happ
      obtain ⟨rs', h1, h2, h3, h4, h5, h6⟩ :=
        save_loop_spec toEntity hprev hid ids rest (i + 1)
          (some (toEntity e v (ids i)).event_id) st'
      rcases hrec : save_loop toEntity ids (i + 1) rest
          (some (toEntity e v (ids i)).event_id) st' with ⟨out', st''⟩
      have h1' : st''.rows = st'.rows ++ rs' := by
        have := h1
        rw [hrec] at this
        simpa using this
      rw [hrec] at h3 h4
      refine ⟨row :: rs', ?_, ?_, ?_, ?_, ?_, ?_⟩
      · cases out' <;> simp [save_loop, happ, hrec, h1', hrows, List.append_assoc]
      · simpa using Nat.succ_le_succ h2
      · intro hok
        cases out' with
        | ok res => simp [h3 rfl]
        | error err => exact absurd hok (by simp [save_loop, happ, hrec, Except.isOk, Except.toBool])
      · intro hbad
        cases out' with
        | ok res => exact absurd hbad (by simp [save_loop, happ, hrec, Except.isOk, Except.toBool])
        | error err => simpa using Nat.succ_lt_succ (h4 rfl)
      · refine ⟨by rw [hrprev, hprev], ?_⟩
        rw [hrid]
        exact h5
      · exact ⟨by rw [hrid, hid], h6⟩

theorem restaurant_entity_previous (e : RestaurantEvent) (v : Option Uuid) (u : Uuid) :
    (RestaurantEvent.to_new_event_entity e v u).previous_id = v := by
  cases e <;> rfl

theorem restaurant_entity_id (e : RestaurantEvent) (v : Option Uuid) (u : Uuid) :
    (RestaurantEvent.to_new_event_entity e v u).event_id = u := by
  cases e <;> rfl

theorem order_entity_previous (e : OrderEvent) (v : Option Uuid) (u : Uuid) :
    (OrderEvent.to_new_event_entity e v u).previous_id = v := by
  cases e <;> rfl

theorem order_entity_id (e : OrderEvent) (v : Option Uuid) (u : Uuid) :
    (OrderEvent.to_new_event_entity e v u).event_id = u := by
  cases e <;> rfl

theorem event_entity_previous (e : Event) (v : Option Uuid) (u : Uuid) :
    (Event.to_new_event_entity e v u).previous_id = v := by
  cases e with
  | first re => exact restaurant_entity_previous re v u
  | second oe => exact order_entity_previous oe v u

theorem event_entity_id (e : Event) (v : Option Uuid) (u : Uuid) :
    (Event.to_new_event_entity e v u).event_id = u := by
  cases e with
  | first re => exact restaurant_entity_id re v u
  | second oe => exact order_entity_id oe v u

-- ######################################################################
-- Claims
-- ######################################################################

/-- C6: the order saga's react returns exactly one CreateOrder command
(with identifier = the event's order_identifier, restaurant_identifier =
the event's identifier, and the event's line_items) for an OrderPlaced
event, and the empty command list for every other RestaurantEvent
variant. -/
theorem C6_saga_reacts_only_to_order_placed :
    (∀ e : OrderPlaced, order_saga_react (.orderPlaced e) =
      [.create { identifier := e.order_identifier,
                 restaurant_identifier := e.identifier,
                 line_items := e.line_items }]) ∧
    (∀ e : RestaurantCreated, order_saga_react (.created e) = []) ∧
    (∀ e : RestaurantNotCreated, order_saga_react (.notCreated e) = []) ∧
    (∀ e : RestaurantMenuChanged, order_saga_react (.menuChanged e) = []) ∧
    (∀ e : RestaurantMenuNotChanged, order_saga_react (.menuNotChanged e) = []) ∧
    (∀ e : OrderNotPlaced, order_saga_react (.orderNotPlaced e) = []) :=
  ⟨fun _ => rfl, fun _ => rfl, fun _ => rfl, fun _ => rfl, fun _ => rfl, fun _ => rfl⟩

/-- C7: deciding CreateRestaurant against a non-absent state yields exactly
one RestaurantNotCreated event carrying the command's identifier, name and
menu with reason "Restaurant already exists", and the restaurant view's
evolve leaves any state unchanged on a RestaurantNotCreated event. -/
theorem C7_duplicate_creation :
    (∀ (s : Restaurant) (c : CreateRestaurant),
      restaurant_decide (.createRestaurant c) (some s) =
        [.notCreated { identifier := c.identifier, name := c.name, menu := c.menu,
                       reason := ⟨("Restaurant already exists")⟩ }]) ∧
    (∀ (st : Option RestaurantViewState) (e : RestaurantNotCreated),
      restaurant_view_evolve st (.notCreated e) = st) :=
  ⟨fun _ _ => rfl, fun _ _ => rfl⟩

/-- C9: both reference views are idempotent per event: evolving a state
twice with the same event equals evolving it once, for the restaurant view
and for the order view. -/
theorem C9_view_idempotent :
    (∀ (s : Option RestaurantViewState) (e : RestaurantEvent),
      restaurant_view_evolve (restaurant_view_evolve s e) e = restaurant_view_evolve s e) ∧
    (∀ (s : Option OrderViewState) (e : OrderEvent),
      order_view_evolve (order_view_evolve s e) e = order_view_evolve s e) := by
  constructor
  · intro s e
    cases s <;> cases e <;> rfl
  · intro s e
    cases s <;> cases e <;> rfl

/-- C10 counterexample: for the OrderPlaced variant the event name written
to the new-event entity ("RestaurantOrderPlaced") differs from
event_name() ("OrderPlaced"), so the two assignments do not agree. -/
theorem C10_counterexample :
    (RestaurantEvent.to_new_event_entity (.orderPlaced sampleOrderPlaced) none ⟨("u1")⟩).event ≠
      RestaurantEvent.event_name (.orderPlaced sampleOrderPlaced) := by
  decide

/-- C10 amended: the entity's event field equals event_name() for the
Created, NotCreated, MenuChanged and MenuNotChanged variants, but for
OrderPlaced and OrderNotPlaced the entity writes "RestaurantOrderPlaced"
and "RestaurantOrderNotPlaced" while event_name() returns "OrderPlaced"
and "OrderNotPlaced"; the Event-level impl writes the same names as the
RestaurantEvent-level impl. -/
theorem C10_event_names :
    (∀ (e : RestaurantEvent) (v : Option Uuid) (u : Uuid),
      (RestaurantEvent.to_new_event_entity e v u).event =
        match e with
        | .orderPlaced _ => "RestaurantOrderPlaced"
        | .orderNotPlaced _ => "RestaurantOrderNotPlaced"
        | _ => e.event_name) ∧
    (∀ (e : RestaurantEvent) (v : Option Uuid) (u : Uuid),
      (Event.to_new_event_entity (.first e) v u).event =
        (RestaurantEvent.to_new_event_entity e v u).event) := by
  constructor
  · intro e v u
    cases e <;> rfl
  · intro e v u
    rfl

/-- C1 counterexample: a save call on a two-event batch whose second
append is rejected (its drawn event_id collides with a stored row's,
violating the globally-unique event_id constraint) returns an error, yet
exactly one of the two events has been persisted and the log has grown -
neither "all persisted" nor "none persisted, log unchanged". -/
theorem C1_counterexample :
    (aggregate_repository_save c1Events none c1Ids c1Store).1.isOk = false ∧
    (aggregate_repository_save c1Events none c1Ids c1Store).2.rows.length = 2 ∧
    c1Store.rows.length = 1 ∧ c1Events.length = 2 :=
  ⟨rfl, rfl, rfl, rfl⟩

/-- C1 amended: save appends the batch one event at a time and stops at
the first rejected append without rolling back, so the store always grows
by some prefix of the batch: all events on success, strictly fewer than
all (the ones appended before the failure) on error. -/
theorem C1_save_prefix (events : List Event) (v : Option Uuid) (ids : Nat → Uuid)
    (st : EventStore) :
    ∃ rs : List EventEntity,
      (aggregate_repository_save events v ids st).2.rows = st.rows ++ rs ∧
      rs.length ≤ events.length ∧
      ((aggregate_repository_save events v ids st).1.isOk = true →
        rs.length = events.length) ∧
      ((aggregate_repository_save events v ids st).1.isOk = false →
        rs.length < events.length) := by
  obtain ⟨rs, h1, h2, h3, h4, _, _⟩ :=
    save_loop_spec Event.to_new_event_entity event_entity_previous event_entity_id
      ids events 0 v st
  exact ⟨rs, h1, h2, h3, h4⟩

/-- C1 witness: the amended statement evaluated at the concrete inputs of
the counterexample scenario. -/
theorem C1_witness :
    ∃ rs : List EventEntity,
      (aggregate_repository_save c1Events none c1Ids c1Store).2.rows = c1Store.rows ++ rs ∧
      rs.length ≤ c1Events.length ∧
      ((aggregate_repository_save c1Events none c1Ids c1Store).1.isOk = true →
        rs.length = c1Events.length) ∧
      ((aggregate_repository_save c1Events none c1Ids c1Store).1.isOk = false →
        rs.length < c1Events.length) :=
  C1_save_prefix c1Events none c1Ids c1Store

/-- C2: evaluation of OrderEventRepository::save on a batch spanning two
streams (o1, then o2), with one event already stored in o1.  The save
succeeds and the persisted row of stream o2 carries previous_id = u1, the
event_id of the new row of stream o1: the code probes only the first
event's stream and chains every event from that single running version,
so an event's previous_id can refer to an event of a different stream,
contrary to the claimed per-stream mapping. -/
theorem C2_code_eval :
    (order_repository_save c2Events c2Ids c2Store).1.isOk = true ∧
    ((order_repository_save c2Events c2Ids c2Store).2.rows.map
        fun r => (r.decider_id, r.event_id, r.previous_id)) =
      [("o1", ⟨("u0")⟩, none), ("o1", ⟨("u1")⟩, some ⟨("u0")⟩),
       ("o2", ⟨("u2")⟩, some (⟨("u1")⟩ : Uuid))] :=
  ⟨rfl, rfl⟩

/-- C3: when RestaurantEventRepository::save succeeds on a batch with
prior version v, the store grows by exactly one row per event, the rows
draw their event_ids from the fresh-id supply in order, the first row has
previous_id = v (absent for a brand-new stream), and every later row's
previous_id is the event_id of the immediately preceding row of the
batch. -/
theorem C3_save_chains (events : List RestaurantEvent) (v : Option Uuid)
    (ids : Nat → Uuid) (st : EventStore) (res : List (RestaurantEvent × Uuid))
    (st' : EventStore) (hne : events ≠ [])
    (hok : restaurant_repository_save events v ids st = (Except.ok res, st')) :
    ∃ rs : List EventEntity,
      st'.rows = st.rows ++ rs ∧ rs.length = events.length ∧
      chained v rs ∧ drawn ids 0 rs := by
  obtain ⟨rs, h1, h2, h3, h4, h5, h6⟩ :=
    save_loop_spec RestaurantEvent.to_new_event_entity restaurant_entity_previous
      restaurant_entity_id ids events 0 v st
  have hok' : save_loop RestaurantEvent.to_new_event_entity ids 0 events v st =
      (Except.ok res, st') := hok
  rw [hok'] at h1 h3
  exact ⟨rs, h1, h3 rfl, h5, h6⟩

/-- C3 witness: a successful two-event save on a fresh stream, with the
chain starting from the absent version. -/
theorem C3_witness :
    ∃ rs : List EventEntity,
      ((restaurant_repository_save c3Events none c3Ids c3Store).2).rows =
        c3Store.rows ++ rs ∧
      rs.length = c3Events.length ∧ chained none rs ∧ drawn c3Ids 0 rs :=
  C3_save_chains c3Events none c3Ids c3Store
    [(.created { identifier := ⟨⟨("r1")⟩⟩, name := ⟨("Chez")⟩, menu := sampleMenu }, ⟨("u1")⟩),
     (.menuChanged { identifier := ⟨⟨("r1")⟩⟩, menu := sampleMenu }, ⟨("u2")⟩)]
    ((restaurant_repository_save c3Events none c3Ids c3Store).2)
    (by decide) rfl

/-- C4: evaluation of the version probe on a stream with no stored
events: get_latest_event runs through fetch_one, so the empty stream
produces sqlx RowNotFound as an error, and version_provider propagates it
instead of succeeding with None. -/
theorem C4_code_eval :
    list_events ("o1") emptyStore = [] ∧
    get_latest_event ("o1") emptyStore =
      Except.error ⟨("no rows returned by a query that expected to return at least one row")⟩ ∧
    order_repository_version_provider
        (.created { identifier := ⟨⟨("o1")⟩⟩, restaurant_identifier := ⟨⟨("r1")⟩⟩,
                    status := .created, line_items := [] }) emptyStore =
      Except.error ⟨("no rows returned by a query that expected to return at least one row")⟩ :=
  ⟨rfl, rfl, rfl⟩

theorem ok_bind {ε α β : Type} (a : α) (f : α → Except ε β) :
    (Except.ok (ε := ε) a >>= f) = f a := rfl

theorem ok_map {ε α β : Type} (g : α → β) (a : α) :
    (g <$> Except.ok (ε := ε) a) = Except.ok (g a) := rfl

theorem decodeU32_natCast (n : Nat) : decodeU32 (.num (n : Rat)) = Except.ok n := by
  simp [decodeU32]

theorem decodeCuisine_enc (c : RestaurantMenuCuisine) :
    decodeCuisine (.str (cuisineName c)) = Except.ok c := by
  cases c <;> rfl

theorem decodeOrderStatus_enc (s : OrderStatus) :
    decodeOrderStatus (.str (orderStatusName s)) = Except.ok s := by
  cases s <;> rfl

theorem decodeMenuItem_enc (m : MenuItem) :
    decodeMenuItem (encodeMenuItem m) = Except.ok m := rfl

theorem decodeMenuItems_enc (ms : List MenuItem) :
    decodeMenuItems (ms.map encodeMenuItem) = Except.ok ms := by
  induction ms with
  | nil => rfl
  | cons m rest ih =>
    simp only [List.map, decodeMenuItems, decodeMenuItem_enc, ih]
    rfl

theorem decodeMenu_enc (m : RestaurantMenu) :
    decodeMenu (encodeMenu m) = Except.ok m := by
  obtain ⟨mid, items, cuisine⟩ := m
  simp [encodeMenu, decodeMenu, reqField, getField, decodeUuid, decodeString,
        decodeMenuItemsJson, decodeMenuItems_enc, decodeCuisine_enc, ok_bind, ok_map]

theorem decodeLineItem_enc (li : OrderLineItem) :
    decodeLineItem (encodeLineItem li) = Except.ok li := by
  obtain ⟨id, q, mi, name⟩ := li
  simp [encodeLineItem, decodeLineItem, reqField, getField, decodeUuid,
        decodeString, decodeU32_natCast, ok_bind, ok_map]

theorem decodeLineItems_enc (lis : List OrderLineItem) :
    decodeLineItems (lis.map encodeLineItem) = Except.ok lis := by
  induction lis with
  | nil => rfl
  | cons li rest ih =>
    simp only [List.map, decodeLineItems, decodeLineItem_enc, ih]
    rfl

theorem decodeRestaurantEvent_enc (e : RestaurantEvent) :
    decodeRestaurantEvent (encodeRestaurantEvent e) = Except.ok e := by
  cases e <;>
    simp [encodeRestaurantEvent, decodeRestaurantEvent, getField, reqField,
          decodeUuid, decodeString, decodeMenu_enc, decodeLineItemsJson,
          decodeLineItems_enc, ok_bind, ok_map]

theorem decodeOrderEvent_enc (e : OrderEvent) :
    decodeOrderEvent (encodeOrderEvent e) = Except.ok e := by
  cases e <;>
    simp [encodeOrderEvent, decodeOrderEvent, getField, reqField,
          decodeUuid, decodeString, decodeOrderStatus_enc, decodeLineItemsJson,
          decodeLineItems_enc, ok_bind, ok_map]

theorem restaurantDecode_of_orderEnc (oe : OrderEvent) :
    ∃ msg, decodeRestaurantEvent (encodeOrderEvent oe) = Except.error msg := by
  cases oe with
  | created ev => exact ⟨_, rfl⟩
  | notCreated ev => exact ⟨_, rfl⟩
  | prepared ev => exact ⟨_, rfl⟩
  | notPrepared ev => exact ⟨_, rfl⟩

theorem decodeEvent_enc (e : Event) :
    decodeEvent (encodeEvent e) = Except.ok e := by
  cases e with
  | first re => simp [decodeEvent, encodeEvent, decodeRestaurantEvent_enc]
  | second oe =>
    obtain ⟨msg, hmsg⟩ := restaurantDecode_of_orderEnc oe
    simp [decodeEvent, encodeEvent, hmsg, decodeOrderEvent_enc]

theorem restaurant_entity_data (e : RestaurantEvent) (v : Option Uuid) (u : Uuid) :
    (RestaurantEvent.to_new_event_entity e v u).data = encodeRestaurantEvent e := by
  cases e <;> rfl

theorem order_entity_data (e : OrderEvent) (v : Option Uuid) (u : Uuid) :
    (OrderEvent.to_new_event_entity e v u).data = encodeOrderEvent e := by
  cases e <;> rfl

theorem event_entity_data (e : Event) (v : Option Uuid) (u : Uuid) :
    (Event.to_new_event_entity e v u).data = encodeEvent e := by
  cases e with
  | first re => cases re <;> rfl
  | second oe => cases oe <;> rfl

/-- C8: event payload serialization round-trips: for every Event (and
every RestaurantEvent and OrderEvent) and any version, decoding the data
field of the entity built by to_new_event_entity - via to_event,
to_restaurant_event and to_order_event respectively - returns exactly the
original event. -/
theorem C8_roundtrip (e : Event) (re : RestaurantEvent) (oe : OrderEvent)
    (v : Option Uuid) (u : Uuid) (o : Int) :
    to_event ((Event.to_new_event_entity e v u).toEventEntity o) = Except.ok e ∧
    to_restaurant_event
      ((RestaurantEvent.to_new_event_entity re v u).toEventEntity o) = Except.ok re ∧
    to_order_event
      ((OrderEvent.to_new_event_entity oe v u).toEventEntity o) = Except.ok oe := by
  refine ⟨?_, ?_, ?_⟩
  · simpa [to_event, NewEventEntity.toEventEntity, event_entity_data]
      using decodeEvent_enc e
  · simpa [to_restaurant_event, NewEventEntity.toEventEntity, restaurant_entity_data]
      using decodeRestaurantEvent_enc re
  · simpa [to_order_event, NewEventEntity.toEventEntity, order_entity_data]
      using decodeOrderEvent_enc oe

/-- C5 counterexample: a fetched Restaurant-stream event whose data cannot
be parsed makes the view pass return the decode error with NO ack or nack
call, and makes the saga pass panic (aborting the process) with NO ack or
nack call - the claimed "nack so the lease is released" does not happen. -/
theorem C5_counterexample :
    (stream_events_to_view (Except.ok (some undecodableRow))
        (fun _ => Except.ok ()) (fun _ => Except.ok ())).actions = [] ∧
    (stream_events_to_view (Except.ok (some undecodableRow))
        (fun _ => Except.ok ()) (fun _ => Except.ok ())).outcome =
      .error ⟨("data did not match any variant of untagged enum Sum")⟩ ∧
    (stream_events_to_saga (Except.ok (some undecodableRow))
        (fun _ => Except.ok ())).actions = [] ∧
    (stream_events_to_saga (Except.ok (some undecodableRow))
        (fun _ => Except.ok ())).outcome = .panic ("invalid type: expected a map") :=
  ⟨rfl, rfl, rfl, rfl⟩

/-- C5 amended: on a decode failure the dispatch pass makes no ack or
nack call at all: the view pass returns the decode error (the ? operator
propagates it before any ack/nack), and the saga pass panics with the
error's message (.unwrap() on the Err); the lease is left to expire on
its own. -/
theorem C5_decode_failure (ent : EventEntity)
    (rh oh : Event → Except ErrorMessage Unit)
    (sh : RestaurantEvent → Except ErrorMessage Unit) (err err2 : ErrorMessage) :
    ((ent.decider = "Restaurant" ∨ ent.decider = "Order") →
      to_event ent = Except.error err →
      stream_events_to_view (Except.ok (some ent)) rh oh = ⟨[], .error err⟩) ∧
    (ent.decider = "Restaurant" →
      to_restaurant_event ent = Except.error err2 →
      stream_events_to_saga (Except.ok (some ent)) sh = ⟨[], .panic err2.message⟩) := by
  constructor
  · rintro (hd | hd) hdec <;> simp [stream_events_to_view, hd, hdec]
  · intro hd hdec
    simp [stream_events_to_saga, hd, hdec]

/-- C5 witness: the amended statement evaluated on the concrete
undecodable row. -/
theorem C5_witness :
    stream_events_to_view (Except.ok (some undecodableRow))
        (fun _ => Except.ok ()) (fun _ => Except.ok ()) =
      ⟨[], .error ⟨("data did not match any variant of untagged enum Sum")⟩⟩ ∧
    stream_events_to_saga (Except.ok (some undecodableRow)) (fun _ => Except.ok ()) =
      ⟨[], .panic ("invalid type: expected a map")⟩ :=
  ⟨(C5_decode_failure undecodableRow (fun _ => Except.ok ()) (fun _ => Except.ok ())
      (fun _ => Except.ok ()) ⟨("data did not match any variant of untagged enum Sum")⟩
      ⟨("invalid type: expected a map")⟩).1 (Or.inl rfl) rfl,
   (C5_decode_failure undecodableRow (fun _ => Except.ok ()) (fun _ => Except.ok ())
      (fun _ => Except.ok ()) ⟨("data did not match any variant of untagged enum Sum")⟩
      ⟨("invalid type: expected a map")⟩).2 rfl rfl⟩
